import Mathlib

/-!
Verification of the multisig protocol client (TypeScript sources:
`multisig.ts` — the `MultiSig` class — and `schema.ts` — the Borsh schema).

The development shallowly embeds the client: byte buffers are `List Nat`
(each writer keeps elements below 256), Borsh serialization and
deserialization are translated field-for-field from the schema
declarations, SHA-256 is implemented concretely (the client hashes with
`CryptoJS.SHA256`), and the external chain-provided program-derived-address
search (`PublicKey.findProgramAddress`) is an explicit function parameter,
since only the seed lists the client passes to it are this repository's
code.
-/

set_option maxRecDepth 100000

namespace Multisig

/-- A byte buffer: a list of byte values. -/
abbrev Bytes := List Nat

/-- A 32-byte address (`PublicKey.toBuffer()` always yields 32 bytes). -/
abbrev Pubkey := { l : Bytes // l.length = 32 }

namespace Sha256

/-- Truncate to a 32-bit word. -/
def u32 (x : Nat) : Nat := x % 4294967296

/-- Right-rotation of a 32-bit word. -/
def rotr (n x : Nat) : Nat := u32 ((x >>> n) ||| (x <<< (32 - n)))

/-- SHA-256 choice function. -/
def ch (e f g : Nat) : Nat := (e &&& f) ^^^ ((4294967295 ^^^ e) &&& g)

/-- SHA-256 majority function. -/
def maj (a b c : Nat) : Nat := (a &&& b) ^^^ (a &&& c) ^^^ (b &&& c)

/-- Compression sigma functions. -/
def bigSigma0 (x : Nat) : Nat := rotr 2 x ^^^ rotr 13 x ^^^ rotr 22 x

/-- Compression sigma functions. -/
def bigSigma1 (x : Nat) : Nat := rotr 6 x ^^^ rotr 11 x ^^^ rotr 25 x

/-- Message-schedule sigma functions. -/
def smallSigma0 (x : Nat) : Nat := rotr 7 x ^^^ rotr 18 x ^^^ (x >>> 3)

/-- Message-schedule sigma functions. -/
def smallSigma1 (x : Nat) : Nat := rotr 17 x ^^^ rotr 19 x ^^^ (x >>> 10)

/-- The 64 SHA-256 round constants (FIPS 180-4, written in decimal). -/
def K : List Nat :=
  [1116352408, 1899447441, 3049323471, 3921009573, 961987163, 1508970993,
   2453635748, 2870763221, 3624381080, 310598401, 607225278, 1426881987,
   1925078388, 2162078206, 2614888103, 3248222580, 3835390401, 4022224774,
   264347078, 604807628, 770255983, 1249150122, 1555081692, 1996064986,
   2554220882, 2821834349, 2952996808, 3210313671, 3336571891, 3584528711,
   113926993, 338241895, 666307205, 773529912, 1294757372, 1396182291,
   1695183700, 1986661051, 2177026350, 2456956037, 2730485921, 2820302411,
   3259730800, 3345764771, 3516065817, 3600352804, 4094571909, 275423344,
   430227734, 506948616, 659060556, 883997877, 958139571, 1322822218,
   1537002063, 1747873779, 1955562222, 2024104815, 2227730452, 2361852424,
   2428436474, 2756734187, 3204031479, 3329325298]

/-- A 64-bit length in big-endian bytes. -/
def be64 (n : Nat) : Bytes :=
  [(n >>> 56) % 256, (n >>> 48) % 256, (n >>> 40) % 256, (n >>> 32) % 256,
   (n >>> 24) % 256, (n >>> 16) % 256, (n >>> 8) % 256, n % 256]

/-- A 32-bit word in big-endian bytes. -/
def be32 (x : Nat) : Bytes := [(x >>> 24) % 256, (x >>> 16) % 256, (x >>> 8) % 256, x % 256]

/-- Merkle–Damgård padding: 0x80, zeros to 56 mod 64, then the bit length. -/
def pad (msg : Bytes) : Bytes :=
  msg ++ 128 :: List.replicate ((64 - (msg.length + 9) % 64) % 64) 0 ++ be64 (8 * msg.length)

/-- Pack bytes into big-endian 32-bit words. -/
def toWords : Bytes → List Nat
  | a :: b :: c :: d :: rest => (((a * 256 + b) * 256 + c) * 256 + d) :: toWords rest
  | _ => []

/-- Split a word stream into 16-word blocks. -/
def toBlocks : List Nat → List (List Nat)
  | w0 :: w1 :: w2 :: w3 :: w4 :: w5 :: w6 :: w7 ::
    w8 :: w9 :: w10 :: w11 :: w12 :: w13 :: w14 :: w15 :: rest =>
      [w0, w1, w2, w3, w4, w5, w6, w7, w8, w9, w10, w11, w12, w13, w14, w15] :: toBlocks rest
  | _ => []

/-- Extend the message schedule, kept in reverse (head is the newest word). -/
def extendRev (rw : List Nat) : Nat → List Nat
  | 0 => rw
  | n + 1 =>
      extendRev
        (u32 (smallSigma1 (rw.getD 1 0) + rw.getD 6 0 + smallSigma0 (rw.getD 14 0) + rw.getD 15 0)
          :: rw) n

/-- The 64-word message schedule of one block. -/
def schedule (block : List Nat) : List Nat := (extendRev block.reverse 48).reverse

/-- The eight working variables of the compression function. -/
structure Digest where
  a : Nat
  b : Nat
  c : Nat
  d : Nat
  e : Nat
  f : Nat
  g : Nat
  h : Nat

/-- The SHA-256 initialization vector. -/
def initDigest : Digest :=
  ⟨1779033703, 3144134277, 1013904242, 2773480762, 1359893119, 2600822924, 528734635, 1541459225⟩

/-- One compression round. -/
def step (s : Digest) (w k : Nat) : Digest :=
  let t1 := u32 (s.h + bigSigma1 s.e + ch s.e s.f s.g + k + w)
  let t2 := u32 (bigSigma0 s.a + maj s.a s.b s.c)
  ⟨u32 (t1 + t2), s.a, s.b, s.c, u32 (s.d + t1), s.e, s.f, s.g⟩

/-- Compress one 16-word block into the running digest. -/
def compress (s : Digest) (block : List Nat) : Digest :=
  let t := List.foldl (fun st (wk : Nat × Nat) => step st wk.1 wk.2) s ((schedule block).zip K)
  ⟨u32 (s.a + t.a), u32 (s.b + t.b), u32 (s.c + t.c), u32 (s.d + t.d),
   u32 (s.e + t.e), u32 (s.f + t.f), u32 (s.g + t.g), u32 (s.h + t.h)⟩

/-- SHA-256 of a byte message, as its 32 digest bytes. -/
def sha256 (msg : Bytes) : Bytes :=
  let s := List.foldl compress initDigest (toBlocks (toWords (pad msg)))
  be32 s.a ++ be32 s.b ++ be32 s.c ++ be32 s.d ++ be32 s.e ++ be32 s.f ++ be32 s.g ++ be32 s.h

end Sha256

/-! ## Borsh data model (`schema.ts`)

Each structure mirrors one class registered in the schema `Map`, with the
schema's field order. Field types follow the schema declarations:
`[32]` fixed byte arrays are `Pubkey`, `u8`/`u32`/`u64` integers are `Nat`
written modulo 2^8 / 2^32 / 2^64, dynamic arrays are `List`, the borsh
`option` kind is `Option`, and the `u8`-mapped booleans are `Bool`. -/

/-- `schema.ts` `GroupMember`: fields `publicKey : [32]`, `weight : u32`. -/
structure GroupMember where
  publicKey : Pubkey
  weight : Nat
deriving DecidableEq

/-- `schema.ts` `GroupData`: fields `members : [GroupMember]`, `threshold : u32`. -/
structure GroupData where
  members : List GroupMember
  threshold : Nat
deriving DecidableEq

/-- `schema.ts` `ProposedAccountMeta`: `pubkey : [32]`, `is_signer : u8` (bool-mapped),
`is_writable : u8` (bool-mapped). -/
structure ProposedAccountMeta where
  pubkey : Pubkey
  is_signer : Bool
  is_writable : Bool
deriving DecidableEq

/-- `schema.ts` `ProposedInstruction`: `program_id : [32]`,
`accounts : [ProposedAccountMeta]`, `data : [u8]`. -/
structure ProposedInstruction where
  program_id : Pubkey
  accounts : List ProposedAccountMeta
  data : Bytes
deriving DecidableEq

/-- `schema.ts` `ProposeInstruction`: `instruction : ProposedInstruction`, `lamports : u64`. -/
structure ProposeInstruction where
  instruction : ProposedInstruction
  lamports : Nat
deriving DecidableEq

/-- `schema.ts` `ProposalState`: `members : u64`, `current_weight : u32`. -/
structure ProposalState where
  members : Nat
  current_weight : Nat
deriving DecidableEq

/-- `schema.ts` `ProposalConfig`: `group : [32]`, `instruction : ProposedInstruction`. -/
structure ProposalConfig where
  group : Pubkey
  instruction : ProposedInstruction
deriving DecidableEq

/-- `schema.ts` `ProposalData`: `config : ProposalConfig`, `state : ProposalState`
(in this schema order). -/
structure ProposalData where
  config : ProposalConfig
  state : ProposalState
deriving DecidableEq

/-- `schema.ts` `ProtectedAccountConfig`: `lamports : u64`, `space : u64`, `owner : [32]`. -/
structure ProtectedAccountConfig where
  lamports : Nat
  space : Nat
  owner : Pubkey
deriving DecidableEq

/-- `schema.ts` `InitInstruction`: `group_data : GroupData`, `lamports : u64`,
`protected_account_config : option ProtectedAccountConfig`. -/
structure InitInstruction where
  group_data : GroupData
  lamports : Nat
  protected_account_config : Option ProtectedAccountConfig
deriving DecidableEq

/-- `schema.ts` `InstructionData`: the tagged union over the three instruction
variants, in the schema's `values` order: `init`, `propose`, `approve`. -/
inductive InstructionData where
  | init (i : InitInstruction)
  | propose (p : ProposeInstruction)
  | approve
deriving DecidableEq

/-! ## Borsh serialization

Translated from the `borsh` dependency's writer as driven by the schema:
fixed-width integers are little-endian, dynamic arrays get a `u32` length
prefix followed by each element, `[32]` arrays are written verbatim, the
`option` kind writes a one-byte presence flag, and an enum writes its
variant index as a single `u8` byte followed by the variant's struct
fields. Booleans go through `schema.ts`'s `boolMapper`:
`boolToInt`/`intToBool`. -/

/-- `schema.ts` `boolToInt`: `t ? 1 : 0`. -/
def boolToInt (t : Bool) : Nat := if t then 1 else 0

/-- `schema.ts` `intToBool`: `i !== 0`. -/
def intToBool (i : Nat) : Bool := i != 0

/-- Borsh writer for a `u8` field. -/
def writeU8 (x : Nat) : Bytes := [x % 256]

/-- Borsh writer for a little-endian `u32` field. -/
def writeU32 (x : Nat) : Bytes :=
  [x % 256, x / 256 % 256, x / 65536 % 256, x / 16777216 % 256]

/-- Borsh writer for a little-endian `u64` field. -/
def writeU64 (x : Nat) : Bytes :=
  [x % 256, x / 256 % 256, x / 65536 % 256, x / 16777216 % 256,
   x / 4294967296 % 256, x / 1099511627776 % 256,
   x / 281474976710656 % 256, x / 72057594037927936 % 256]

/-- Serialize a `GroupMember` (schema order: `publicKey`, `weight`). -/
def serializeGroupMember (m : GroupMember) : Bytes :=
  m.publicKey.val ++ writeU32 m.weight

/-- Serialize a `GroupData` (schema order: `members`, `threshold`). -/
def serializeGroupData (g : GroupData) : Bytes :=
  writeU32 g.members.length ++ (g.members.map serializeGroupMember).flatten
    ++ writeU32 g.threshold

/-- Serialize a `ProposedAccountMeta` (schema order: `pubkey`, `is_signer`, `is_writable`). -/
def serializeProposedAccountMeta (a : ProposedAccountMeta) : Bytes :=
  a.pubkey.val ++ writeU8 (boolToInt a.is_signer) ++ writeU8 (boolToInt a.is_writable)

/-- Serialize a `ProposedInstruction` (schema order: `program_id`, `accounts`, `data`). -/
def serializeProposedInstruction (i : ProposedInstruction) : Bytes :=
  i.program_id.val ++ writeU32 i.accounts.length
    ++ (i.accounts.map serializeProposedAccountMeta).flatten
    ++ writeU32 i.data.length ++ (i.data.map writeU8).flatten

/-- Serialize a `ProposeInstruction` (schema order: `instruction`, `lamports`). -/
def serializeProposeInstruction (p : ProposeInstruction) : Bytes :=
  serializeProposedInstruction p.instruction ++ writeU64 p.lamports

/-- Serialize a `ProposalState` (schema order: `members`, `current_weight`). -/
def serializeProposalState (s : ProposalState) : Bytes :=
  writeU64 s.members ++ writeU32 s.current_weight

/-- Serialize a `ProposalConfig` (schema order: `group`, `instruction`). -/
def serializeProposalConfig (c : ProposalConfig) : Bytes :=
  c.group.val ++ serializeProposedInstruction c.instruction

/-- Serialize a `ProposalData` (schema order: `config`, `state`). -/
def serializeProposalData (d : ProposalData) : Bytes :=
  serializeProposalConfig d.config ++ serializeProposalState d.state

/-- Serialize a `ProtectedAccountConfig` (schema order: `lamports`, `space`, `owner`). -/
def serializeProtectedAccountConfig (p : ProtectedAccountConfig) : Bytes :=
  writeU64 p.lamports ++ writeU64 p.space ++ p.owner.val

/-- Serialize the borsh `option` kind: one presence byte, then the value. -/
def serializeOptionProtected : Option ProtectedAccountConfig → Bytes
  | none => [0]
  | some p => 1 :: serializeProtectedAccountConfig p

/-- Serialize an `InitInstruction` (schema order: `group_data`, `lamports`,
`protected_account_config`). -/
def serializeInitInstruction (i : InitInstruction) : Bytes :=
  serializeGroupData i.group_data ++ writeU64 i.lamports
    ++ serializeOptionProtected i.protected_account_config

/-- The schema index of each `InstructionData` variant, in `values` order. -/
def variantIndex : InstructionData → Nat
  | .init _ => 0
  | .propose _ => 1
  | .approve => 2

/-- The serialization of an `InstructionData` variant's own struct fields
(`ApproveInstruction` is a field-less struct, so its encoding is empty). -/
def instructionPayloadBytes : InstructionData → Bytes
  | .init i => serializeInitInstruction i
  | .propose p => serializeProposeInstruction p
  | .approve => []

/-- Serialize the `InstructionData` tagged union: borsh writes the variant
index as a single `u8`, then the variant's fields. -/
def serializeInstructionData (d : InstructionData) : Bytes :=
  writeU8 (variantIndex d) ++ instructionPayloadBytes d

/-! ## Address derivation (`multisig.ts`)

The chain-provided search `PublicKey.findProgramAddress(seeds, programId)`
is external library code; it enters the embedding as the explicit function
parameter `fpa`. What is this repository's code — and what the theorems
are about — is the seed list each derivation helper passes to it. -/

/-- The type of the external program-derived-address search:
a function of the seed list and the program identity. -/
abbrev Fpa := List Bytes → Pubkey → Pubkey

/-- `multisig.ts` `PDA_TAG.group = Buffer.from([0])`. -/
def PDA_TAG_group : Bytes := [0]

/-- `multisig.ts` `PDA_TAG.proposal = Buffer.from([1])`. -/
def PDA_TAG_proposal : Bytes := [1]

/-- `multisig.ts` `PDA_TAG.protected = Buffer.from([2])`. -/
def PDA_TAG_protected : Bytes := [2]

/-- `MultiSig.groupAccountKey`: SHA-256 the serialized group, then derive
from the seeds `[PDA_TAG.group, hash]`. -/
def groupAccountKey (fpa : Fpa) (programId : Pubkey) (groupData : GroupData) : Pubkey :=
  fpa [PDA_TAG_group, Sha256.sha256 (serializeGroupData groupData)] programId

/-- `MultiSig.protectedAccountKey`: derive from the seeds
`[PDA_TAG.protected, groupAccountKey.toBuffer()]` — the raw group key
bytes, with no hashing step. -/
def protectedAccountKey (fpa : Fpa) (programId : Pubkey) (groupKey : Pubkey) : Pubkey :=
  fpa [PDA_TAG_protected, groupKey.val] programId

/-- `MultiSig.proposalAccountKey`: SHA-256 the serialized proposal config,
then derive from the seeds `[PDA_TAG.proposal, hash]`. -/
def proposalAccountKey (fpa : Fpa) (programId : Pubkey) (config : ProposalConfig) : Pubkey :=
  fpa [PDA_TAG_proposal, Sha256.sha256 (serializeProposalConfig config)] programId

/-- `MultiSig.groupAccountSpace`: serialized length plus one tag byte. -/
def groupAccountSpace (groupData : GroupData) : Nat :=
  (serializeGroupData groupData).length + 1

/-- `MultiSig.proposalAccountSpace`: length of the serialized `ProposalData`
built from the given config and the constant mock state
`{members: 1, current_weight: 1}`, plus 4 length bytes plus 1 tag byte. -/
def proposalAccountSpace (config : ProposalConfig) : Nat :=
  (serializeProposalData ⟨config, ⟨1, 1⟩⟩).length + 4 + 1

/-! ## Account reading (`multisig.ts`) -/

/-- The failure conditions of the reading path. Constructors correspond to
the thrown values in `multisig.ts`: `ownerMismatch` to
`'error: invalid account owner'`, `zeroData` to
`'data is zero (proposal may be complete)'`, `emptyData` to
`'account data is empty'`, `typeMismatch` to `'invalid account type'`,
and `decodeError` to the borsh reader's `BorshError` (truncated input or
trailing bytes). -/
inductive ReadError where
  | ownerMismatch
  | zeroData
  | emptyData
  | typeMismatch
  | decodeError
deriving DecidableEq

/-- `AccountInfo<Buffer>` as consumed by the readers: the owning program
and the raw account data. -/
structure AccountInfo where
  owner : Pubkey
  data : Bytes
deriving DecidableEq

/-- `multisig.ts` `ACCOUNT_TYPE_TAG.group`. -/
def ACCOUNT_TYPE_TAG_group : Nat := 0

/-- `multisig.ts` `ACCOUNT_TYPE_TAG.proposal`. -/
def ACCOUNT_TYPE_TAG_proposal : Nat := 1

/-- `multisig.ts` `anyNonZero`: scans the buffer for a nonzero byte. -/
def anyNonZero (buffer : Bytes) : Bool := buffer.any (fun b => b != 0)

/-- `multisig.ts` `checkAccountType`: empty data is an error; otherwise the
first byte must equal the expected tag. -/
def checkAccountType (data : Bytes) (expected : Nat) : Except ReadError Unit :=
  match data with
  | [] => .error .emptyData
  | b :: _ => if b ≠ expected then .error .typeMismatch else .ok ()

/-- Borsh reader for a `u8` field. -/
def readU8 : Bytes → Except ReadError (Nat × Bytes)
  | [] => .error .decodeError
  | b :: rest => .ok (b, rest)

/-- Borsh reader for a little-endian `u32` field. -/
def readU32 : Bytes → Except ReadError (Nat × Bytes)
  | b0 :: b1 :: b2 :: b3 :: rest =>
      .ok (b0 + 256 * b1 + 65536 * b2 + 16777216 * b3, rest)
  | _ => .error .decodeError

/-- Borsh reader for a little-endian `u64` field. -/
def readU64 : Bytes → Except ReadError (Nat × Bytes)
  | b0 :: b1 :: b2 :: b3 :: b4 :: b5 :: b6 :: b7 :: rest =>
      .ok (b0 + 256 * b1 + 65536 * b2 + 16777216 * b3 + 4294967296 * b4
            + 1099511627776 * b5 + 281474976710656 * b6 + 72057594037927936 * b7, rest)
  | _ => .error .decodeError

/-- Borsh reader for a `[32]` fixed byte array. -/
def readPubkey (bs : Bytes) : Except ReadError (Pubkey × Bytes) :=
  if h : 32 ≤ bs.length then
    .ok (⟨bs.take 32, by rw [List.length_take]; omega⟩, bs.drop 32)
  else .error .decodeError

/-- Read `n` consecutive elements with the given element reader. -/
def readListOf {α : Type} (rd : Bytes → Except ReadError (α × Bytes)) :
    Nat → Bytes → Except ReadError (List α × Bytes)
  | 0, bs => .ok ([], bs)
  | n + 1, bs => do
      let (a, bs1) ← rd bs
      let (as, bs2) ← readListOf rd n bs1
      .ok (a :: as, bs2)

/-- Borsh reader for a dynamic array: `u32` count, then the elements. -/
def readVec {α : Type} (rd : Bytes → Except ReadError (α × Bytes)) (bs : Bytes) :
    Except ReadError (List α × Bytes) := do
  let (n, bs1) ← readU32 bs
  readListOf rd n bs1

/-- Borsh reader for a `GroupMember`. -/
def readGroupMember (bs : Bytes) : Except ReadError (GroupMember × Bytes) := do
  let (pk, bs1) ← readPubkey bs
  let (w, bs2) ← readU32 bs1
  .ok (⟨pk, w⟩, bs2)

/-- Deserialize a `GroupData`; borsh's `deserialize` rejects trailing bytes. -/
def deserializeGroupData (bs : Bytes) : Except ReadError GroupData := do
  let (ms, bs1) ← readVec readGroupMember bs
  let (t, bs2) ← readU32 bs1
  if bs2 = [] then .ok ⟨ms, t⟩ else .error .decodeError

/-- Borsh reader for a `ProposedAccountMeta`; the `u8` flags go through
`schema.ts`'s `intToBool` mapper. -/
def readProposedAccountMeta (bs : Bytes) : Except ReadError (ProposedAccountMeta × Bytes) := do
  let (pk, bs1) ← readPubkey bs
  let (s, bs2) ← readU8 bs1
  let (w, bs3) ← readU8 bs2
  .ok (⟨pk, intToBool s, intToBool w⟩, bs3)

/-- Borsh reader for a `ProposedInstruction`. -/
def readProposedInstruction (bs : Bytes) : Except ReadError (ProposedInstruction × Bytes) := do
  let (pid, bs1) ← readPubkey bs
  let (accs, bs2) ← readVec readProposedAccountMeta bs1
  let (d, bs3) ← readVec readU8 bs2
  .ok (⟨pid, accs, d⟩, bs3)

/-- Borsh reader for a `ProposalConfig`. -/
def readProposalConfig (bs : Bytes) : Except ReadError (ProposalConfig × Bytes) := do
  let (g, bs1) ← readPubkey bs
  let (i, bs2) ← readProposedInstruction bs1
  .ok (⟨g, i⟩, bs2)

/-- Borsh reader for a `ProposalState`. -/
def readProposalState (bs : Bytes) : Except ReadError (ProposalState × Bytes) := do
  let (m, bs1) ← readU64 bs
  let (w, bs2) ← readU32 bs1
  .ok (⟨m, w⟩, bs2)

/-- Deserialize a `ProposalData`; borsh's `deserialize` rejects trailing bytes. -/
def deserializeProposalData (bs : Bytes) : Except ReadError ProposalData := do
  let (c, bs1) ← readProposalConfig bs
  let (s, bs2) ← readProposalState bs1
  if bs2 = [] then .ok ⟨c, s⟩ else .error .decodeError

/-- `MultiSig.readGroupAccountData`: owner check, then type check on the
raw buffer, then decode of the bytes after the one discriminant byte. -/
def readGroupAccountData (programId : Pubkey) (info : AccountInfo) :
    Except ReadError GroupData :=
  if info.owner ≠ programId then .error .ownerMismatch
  else match checkAccountType info.data ACCOUNT_TYPE_TAG_group with
    | .error e => .error e
    | .ok _ => deserializeGroupData (info.data.drop 1)

/-- `MultiSig.readProposalAccountData`: owner check, then the all-zero
check on the whole raw buffer, then type check, then decode of the bytes
after the one discriminant byte. -/
def readProposalAccountData (programId : Pubkey) (info : AccountInfo) :
    Except ReadError ProposalData :=
  if info.owner ≠ programId then .error .ownerMismatch
  else if ¬ anyNonZero info.data then .error .zeroData
  else match checkAccountType info.data ACCOUNT_TYPE_TAG_proposal with
    | .error e => .error e
    | .ok _ => deserializeProposalData (info.data.drop 1)

/-! ## Instruction builders (`multisig.ts`) -/

/-- One entry of a built instruction's key list
(`{pubkey, isSigner, isWritable}`). -/
structure AccountMetaKey where
  pubkey : Pubkey
  isSigner : Bool
  isWritable : Bool
deriving DecidableEq

/-- A built `TransactionInstruction`. -/
structure TransactionInstruction where
  keys : List AccountMetaKey
  programId : Pubkey
  data : Bytes
deriving DecidableEq

/-- `SystemProgram.programId`: the all-zero address. -/
def systemProgramId : Pubkey := ⟨List.replicate 32 0, by simp⟩

/-- `MultiSig.init`: payer, derived group key, system program, derived
protected key; payload is the serialized `init` envelope. -/
def init (fpa : Fpa) (programId : Pubkey) (data : InitInstruction)
    (payerAccountKey : Pubkey) : TransactionInstruction :=
  let groupKey := groupAccountKey fpa programId data.group_data
  let protectedKey := protectedAccountKey fpa programId groupKey
  { keys :=
      [⟨payerAccountKey, true, true⟩,
       ⟨groupKey, false, true⟩,
       ⟨systemProgramId, false, false⟩,
       ⟨protectedKey, false, true⟩],
    programId := programId,
    data := serializeInstructionData (.init data) }

/-- `MultiSig.propose`: builds the `ProposalConfig` from the group key and
the proposed instruction, derives the proposal and protected keys, and
emits signer, group, proposal, system program, target program, then the
proposed instruction's accounts with the protected-key signer rewrite. -/
def propose (fpa : Fpa) (programId : Pubkey) (data : ProposeInstruction)
    (groupAccountKey signerAccountKey : Pubkey) : TransactionInstruction :=
  let proposalConfig : ProposalConfig := ⟨groupAccountKey, data.instruction⟩
  let proposalKey := proposalAccountKey fpa programId proposalConfig
  let protectedKey := protectedAccountKey fpa programId groupAccountKey
  { keys :=
      [⟨signerAccountKey, true, true⟩,
       ⟨groupAccountKey, false, true⟩,
       ⟨proposalKey, false, true⟩,
       ⟨systemProgramId, false, false⟩,
       ⟨data.instruction.program_id, false, false⟩]
      ++ data.instruction.accounts.map (fun account =>
           ⟨account.pubkey,
            if protectedKey = account.pubkey then false else account.is_signer,
            account.is_writable⟩),
    programId := programId,
    data := serializeInstructionData (.propose data) }

/-- `MultiSig.approve`: reads the group key out of the supplied config,
re-derives the protected key, and emits signer, group, proposal, target
program, then the config's instruction accounts with the protected-key
signer rewrite; payload is the serialized `approve` envelope. -/
def approve (fpa : Fpa) (programId : Pubkey) (proposalAccountKey : Pubkey)
    (proposalConfig : ProposalConfig) (signerAccountKey : Pubkey) : TransactionInstruction :=
  let groupKey := proposalConfig.group
  let protectedKey := protectedAccountKey fpa programId groupKey
  { keys :=
      [⟨signerAccountKey, true, true⟩,
       ⟨groupKey, false, true⟩,
       ⟨proposalAccountKey, false, true⟩,
       ⟨proposalConfig.instruction.program_id, false, false⟩]
      ++ proposalConfig.instruction.accounts.map (fun account =>
           ⟨account.pubkey,
            if protectedKey = account.pubkey then false else account.is_signer,
            account.is_writable⟩),
    programId := programId,
    data := serializeInstructionData .approve }

/-! ## Concrete test material

Helpers and fixtures used by the closed witness and counterexample
theorems: concrete 32-byte keys, concrete instantiations of the external
derivation search, and small concrete protocol values. -/

/-- Equality of reader results is decidable (used to evaluate the readers
at concrete buffers). -/
instance {ε α : Type} [DecidableEq ε] [DecidableEq α] : DecidableEq (Except ε α)
  | .error e, .error e' =>
      if h : e = e' then .isTrue (by rw [h]) else .isFalse (fun c => h (Except.error.inj c))
  | .error _, .ok _ => .isFalse (fun c => Except.noConfusion c)
  | .ok _, .error _ => .isFalse (fun c => Except.noConfusion c)
  | .ok a, .ok a' =>
      if h : a = a' then .isTrue (by rw [h]) else .isFalse (fun c => h (Except.ok.inj c))

/-- A 32-byte key from a byte prefix, zero-padded. -/
def mkKey (l : Bytes) : Pubkey :=
  ⟨(l ++ List.replicate 32 0).take 32,
   by rw [List.length_take, List.length_append, List.length_replicate]; omega⟩

/-- A concrete instantiation of the external derivation search that keeps
the first 32 bytes of the concatenated seeds (enough to distinguish
distinct second seeds). -/
def fpaJoin : Fpa := fun seeds _ => mkKey seeds.flatten

/-- A concrete instantiation of the external derivation search returning a
fixed address. -/
def fpaConst (k : Pubkey) : Fpa := fun _ _ => k

/-- Concrete program identity fixture. -/
def keyP : Pubkey := mkKey [101]

/-- Concrete member / signer key fixtures. -/
def keyA : Pubkey := mkKey [11]

/-- Concrete member / signer key fixtures. -/
def keyB : Pubkey := mkKey [22]

/-- Concrete member / signer key fixtures. -/
def keyC : Pubkey := mkKey [33]

/-- Concrete group key fixture. -/
def keyG : Pubkey := mkKey [44]

/-- Concrete proposed instruction fixture: target program `keyC`, two
accounts (one supplied as signer), two data bytes. -/
def instrW : ProposedInstruction := ⟨keyC, [⟨keyA, true, true⟩, ⟨keyB, false, true⟩], [7, 8]⟩

/-- Concrete propose-instruction fixture. -/
def proposeW : ProposeInstruction := ⟨instrW, 5⟩

/-- Proposal-config fixtures whose serializations are byte-identical while
the values differ: a `u8` data byte is written modulo 256, so `0` and
`256` encode to the same byte. -/
def cfgW1 : ProposalConfig := ⟨keyG, ⟨keyC, [], [0]⟩⟩

/-- Proposal-config fixtures whose serializations are byte-identical while
the values differ: a `u8` data byte is written modulo 256, so `0` and
`256` encode to the same byte. -/
def cfgW2 : ProposalConfig := ⟨keyG, ⟨keyC, [], [256]⟩⟩

/-! # Theorems -/

/-! ## SHA-256 sanity -/

/-- The digest always has 32 bytes. -/
theorem sha256_length (msg : Bytes) : (Sha256.sha256 msg).length = 32 := rfl

/-- FIPS 180-4 test vector: the digest of the empty message. -/
theorem sha256_empty_vector :
    Sha256.sha256 [] =
      [227, 176, 196, 66, 152, 252, 28, 20, 154, 251, 244, 200, 153, 111, 185, 36,
       39, 174, 65, 228, 100, 155, 147, 76, 164, 149, 153, 27, 120, 82, 184, 85] := by decide

/-- FIPS 180-4 test vector: the digest of the three bytes "abc". -/
theorem sha256_abc_vector :
    Sha256.sha256 [97, 98, 99] =
      [186, 120, 22, 191, 143, 1, 207, 234, 65, 65, 64, 222, 93, 174, 34, 35,
       176, 3, 97, 163, 150, 23, 122, 156, 180, 16, 255, 97, 242, 0, 21, 173] := by decide

/-! ## Helper lemmas -/

/-- A list is `Forall₂`-related to its image under `f` whenever `R`
relates every element to its image. -/
theorem forall2_map_self {α β : Type} (R : α → β → Prop) (f : α → β) (l : List α)
    (h : ∀ a, R a (f a)) : List.Forall₂ R l (l.map f) := by
  induction l with
  | nil => exact .nil
  | cons a t ih => exact .cons (h a) ih

/-- Flattening a map whose images all have length `c` yields `c` bytes per
element. -/
theorem length_flatten_map_const {α : Type} (f : α → Bytes) (c : Nat)
    (hf : ∀ a, (f a).length = c) (l : List α) :
    ((l.map f).flatten).length = c * l.length := by
  induction l with
  | nil => simp
  | cons a t ih => simp [hf, ih, Nat.mul_succ]; ring

/-- A serialized member is its 32 key bytes plus a 4-byte weight. -/
theorem length_serializeGroupMember (m : GroupMember) :
    (serializeGroupMember m).length = 36 := by
  simp [serializeGroupMember, writeU32, m.publicKey.2]

/-- A serialized group is a 4-byte count, 36 bytes per member, and a
4-byte threshold. -/
theorem length_serializeGroupData (g : GroupData) :
    (serializeGroupData g).length = 4 + 36 * g.members.length + 4 := by
  simp [serializeGroupData, writeU32,
    length_flatten_map_const serializeGroupMember 36 length_serializeGroupMember]
  ring

/-- An all-zero buffer (in particular an empty one) sends
`readProposalAccountData` to the zero-data error when the owner matches. -/
theorem readProposal_allZero (pid : Pubkey) (info : AccountInfo)
    (howner : info.owner = pid) (hz : ∀ b ∈ info.data, b = 0) :
    readProposalAccountData pid info = .error .zeroData := by
  have hnz : anyNonZero info.data = false := by
    simp only [anyNonZero, List.any_eq_false]
    intro b hb
    simp [hz b hb]
  simp [readProposalAccountData, howner, hnz]

/-! ## Claim C2 -/

/-- C2 counterexample: the protected account's derivation does not hash its
input. At the concrete derivation search `fpaJoin`, program identity `keyP`
and group key `keyG`, the key the code derives (from the raw group key
bytes) differs from the key the claim prescribes (from the SHA-256 digest
of those bytes). -/
theorem protected_key_skips_digest_counterexample :
    protectedAccountKey fpaJoin keyP keyG ≠
      fpaJoin [PDA_TAG_protected, Sha256.sha256 keyG.val] keyP := by decide

/-- C2 (amended): the group and proposal addresses are derived from the
seed pair (tag, SHA-256 of the canonical serialization); the protected
address is derived from (tag, raw group key bytes) with no digest; the
seed tags are exactly 0x00 (group), 0x01 (proposal), 0x02 (protected). -/
theorem pda_seed_structure :
    (∀ (fpa : Fpa) (pid : Pubkey) (gd : GroupData),
        groupAccountKey fpa pid gd =
          fpa [PDA_TAG_group, Sha256.sha256 (serializeGroupData gd)] pid) ∧
    (∀ (fpa : Fpa) (pid : Pubkey) (c : ProposalConfig),
        proposalAccountKey fpa pid c =
          fpa [PDA_TAG_proposal, Sha256.sha256 (serializeProposalConfig c)] pid) ∧
    (∀ (fpa : Fpa) (pid : Pubkey) (gk : Pubkey),
        protectedAccountKey fpa pid gk = fpa [PDA_TAG_protected, gk.val] pid) ∧
    PDA_TAG_group = [0] ∧ PDA_TAG_proposal = [1] ∧ PDA_TAG_protected = [2] :=
  ⟨fun _ _ _ => rfl, fun _ _ _ => rfl, fun _ _ _ => rfl, rfl, rfl, rfl⟩

/-! ## Claim C3 -/

/-- C3 counterexample: the serialized `approve` envelope is the single
byte `[2]`, not a 4-byte little-endian variant index followed by the
variant's (empty) encoding. -/
theorem envelope_tag_four_byte_counterexample :
    serializeInstructionData InstructionData.approve ≠
      writeU32 (variantIndex InstructionData.approve)
        ++ instructionPayloadBytes InstructionData.approve := by decide

/-- C3 (amended): the serialized `InstructionData` begins with a single
one-byte variant index — `init` = 0, `propose` = 1, `approve` = 2 —
followed by that variant's own encoding. -/
theorem envelope_tag_single_byte :
    (∀ d : InstructionData,
        serializeInstructionData d = variantIndex d :: instructionPayloadBytes d) ∧
    (∀ i : InitInstruction, variantIndex (InstructionData.init i) = 0) ∧
    (∀ p : ProposeInstruction, variantIndex (InstructionData.propose p) = 1) ∧
    variantIndex InstructionData.approve = 2 :=
  ⟨fun d => by cases d <;> rfl, fun _ => rfl, fun _ => rfl, rfl⟩

/-! ## Claim C6 -/

/-- C6: two proposal configs with byte-identical serializations derive the
same proposal address, for every derivation search and program identity. -/
theorem proposal_key_dedup (fpa : Fpa) (pid : Pubkey) (c1 c2 : ProposalConfig)
    (h : serializeProposalConfig c1 = serializeProposalConfig c2) :
    proposalAccountKey fpa pid c1 = proposalAccountKey fpa pid c2 := by
  unfold proposalAccountKey
  rw [h]

/-- C6 witness: two distinct concrete configs (data byte 0 versus 256)
serialize to the same bytes and derive the same proposal key. -/
theorem proposal_key_dedup_witness :
    cfgW1 ≠ cfgW2 ∧
    serializeProposalConfig cfgW1 = serializeProposalConfig cfgW2 ∧
    proposalAccountKey fpaJoin keyP cfgW1 = proposalAccountKey fpaJoin keyP cfgW2 :=
  ⟨by decide, by decide, proposal_key_dedup fpaJoin keyP cfgW1 cfgW2 (by decide)⟩

/-! ## Claim C8 -/

/-- C8: `groupAccountSpace` is exactly the canonical encoding's length
(4-byte member count, 36 bytes per member, 4-byte threshold) plus the
1-byte type-tag overhead; the counts for 0, 1 and 5 members are the exact
constants 9, 45 and 189. -/
theorem group_account_space_exact :
    (∀ g : GroupData, groupAccountSpace g = (serializeGroupData g).length + 1) ∧
    (∀ g : GroupData, (serializeGroupData g).length = 4 + 36 * g.members.length + 4) ∧
    groupAccountSpace ⟨[], 2⟩ = 9 ∧
    groupAccountSpace ⟨[⟨keyA, 1⟩], 1⟩ = 45 ∧
    groupAccountSpace ⟨[⟨keyA, 1⟩, ⟨keyB, 1⟩, ⟨keyC, 2⟩, ⟨keyG, 3⟩, ⟨keyP, 5⟩], 7⟩ = 189 :=
  ⟨fun _ => rfl, length_serializeGroupData, by decide, by decide, by decide⟩

/-! ## Claim C10 -/

/-- C10: `proposalAccountSpace` is exactly the serialized config's length
plus 17 — 12 bytes for the fixed-size mock `ProposalState` (one `u64`,
one `u32`), 4 length bytes and 1 tag byte — independently of any actual
on-chain state. -/
theorem proposal_account_space_exact :
    (∀ c : ProposalConfig,
        proposalAccountSpace c = (serializeProposalConfig c).length + 17) ∧
    (serializeProposalState ⟨1, 1⟩).length = 12 := by
  constructor
  · intro c
    have h12 : (serializeProposalState ⟨1, 1⟩).length = 12 := rfl
    simp [proposalAccountSpace, serializeProposalData, h12]
  · rfl

/-! ## Claim C5 -/

/-- C5: the key list emitted by `propose` is exactly proposer (signer,
writable), group (writable), derived proposal address (writable), system
program (read-only), target program (read-only), followed by the proposed
instruction's accounts in order with their supplied writable flags and
the protected-account signer rewrite. -/
theorem propose_key_list_exact :
    ∀ (fpa : Fpa) (pid : Pubkey) (d : ProposeInstruction) (gk sk : Pubkey),
      (propose fpa pid d gk sk).keys.take 5 =
        [⟨sk, true, true⟩,
         ⟨gk, false, true⟩,
         ⟨proposalAccountKey fpa pid ⟨gk, d.instruction⟩, false, true⟩,
         ⟨systemProgramId, false, false⟩,
         ⟨d.instruction.program_id, false, false⟩] ∧
      (propose fpa pid d gk sk).keys.drop 5 =
        d.instruction.accounts.map (fun a =>
          ⟨a.pubkey,
           if protectedAccountKey fpa pid gk = a.pubkey then false else a.is_signer,
           a.is_writable⟩) ∧
      (propose fpa pid d gk sk).keys.length = 5 + d.instruction.accounts.length := by
  intro fpa pid d gk sk
  refine ⟨rfl, rfl, ?_⟩
  simp [propose]
  omega

/-! ## Claim C1 -/

/-- C1 counterexample: the rewrite is applied only to the accounts carried
over from the proposed instruction, not to the fixed prefix. Calling
`propose` with the protected account's derived address as the proposer key
emits a key-list entry whose address equals the protected address and
whose signer flag is `true`. -/
theorem propose_emits_protected_signer_counterexample :
    (⟨protectedAccountKey (fpaConst keyC) keyP keyG, true, true⟩ : AccountMetaKey) ∈
      (propose (fpaConst keyC) keyP proposeW keyG keyC).keys := by decide

/-- C1 (amended): among the emitted entries that originate from the
proposed instruction's account list — in `propose` (after the 5 fixed
entries) and in `approve` (after the 4 fixed entries) — every entry whose
address equals the protected account's derived address has its signer
flag forced to `false`, and every other entry keeps its supplied signer
flag; addresses and writable flags are carried over unchanged. -/
theorem signer_rewrite_on_supplied_accounts :
    (∀ (fpa : Fpa) (pid : Pubkey) (d : ProposeInstruction) (gk sk : Pubkey),
        List.Forall₂ (fun (a : ProposedAccountMeta) (e : AccountMetaKey) =>
            e.pubkey = a.pubkey ∧ e.isWritable = a.is_writable ∧
            (a.pubkey = protectedAccountKey fpa pid gk → e.isSigner = false) ∧
            (a.pubkey ≠ protectedAccountKey fpa pid gk → e.isSigner = a.is_signer))
          d.instruction.accounts ((propose fpa pid d gk sk).keys.drop 5)) ∧
    (∀ (fpa : Fpa) (pid : Pubkey) (pk : Pubkey) (c : ProposalConfig) (sk : Pubkey),
        List.Forall₂ (fun (a : ProposedAccountMeta) (e : AccountMetaKey) =>
            e.pubkey = a.pubkey ∧ e.isWritable = a.is_writable ∧
            (a.pubkey = protectedAccountKey fpa pid c.group → e.isSigner = false) ∧
            (a.pubkey ≠ protectedAccountKey fpa pid c.group → e.isSigner = a.is_signer))
          c.instruction.accounts ((approve fpa pid pk c sk).keys.drop 4)) := by
  constructor
  · intro fpa pid d gk sk
    have hdrop : (propose fpa pid d gk sk).keys.drop 5
        = d.instruction.accounts.map (fun a =>
            (⟨a.pubkey,
              if protectedAccountKey fpa pid gk = a.pubkey then false else a.is_signer,
              a.is_writable⟩ : AccountMetaKey)) := rfl
    rw [hdrop]
    refine forall2_map_self _ _ _ (fun a => ⟨rfl, rfl, ?_, ?_⟩)
    · intro he
      exact if_pos he.symm
    · intro hne
      exact if_neg (fun hh => hne hh.symm)
  · intro fpa pid pk c sk
    have hdrop : (approve fpa pid pk c sk).keys.drop 4
        = c.instruction.accounts.map (fun a =>
            (⟨a.pubkey,
              if protectedAccountKey fpa pid c.group = a.pubkey then false else a.is_signer,
              a.is_writable⟩ : AccountMetaKey)) := rfl
    rw [hdrop]
    refine forall2_map_self _ _ _ (fun a => ⟨rfl, rfl, ?_, ?_⟩)
    · intro he
      exact if_pos he.symm
    · intro hne
      exact if_neg (fun hh => hne hh.symm)

/-! ## Claim C4 -/

/-- C4 counterexample: a buffer that is all zero after the discriminant
but whose discriminant byte is the proposal tag is not reported as the
zero-data condition — it passes the whole-buffer zero scan and decodes
successfully. -/
theorem zero_payload_behind_tag_counterexample :
    ((1 :: List.replicate 84 0 : Bytes).drop 1).all (fun b => b == 0) = true ∧
    readProposalAccountData keyP ⟨keyP, 1 :: List.replicate 84 0⟩ =
      .ok ⟨⟨mkKey [], ⟨mkKey [], [], []⟩⟩, ⟨0, 0⟩⟩ ∧
    readProposalAccountData keyP ⟨keyP, 1 :: List.replicate 84 0⟩ ≠
      .error .zeroData :=
  ⟨by decide, by decide, by decide⟩

/-- C4 (amended): a proposal account buffer owned by the program whose
bytes are all zero — including the discriminant byte — is reported as the
distinct zero-data (AlreadyExecutedOrClosed) condition, not as a decode
or type-mismatch error. -/
theorem all_zero_buffer_reads_zero_data (pid : Pubkey) (info : AccountInfo)
    (howner : info.owner = pid) (hz : info.data.all (fun b => b == 0) = true) :
    readProposalAccountData pid info = .error .zeroData := by
  refine readProposal_allZero pid info howner ?_
  intro b hb
  simpa using (List.all_eq_true.mp hz) b hb

/-- C4 witness: a concrete four-byte all-zero buffer is reported as the
zero-data condition. -/
theorem all_zero_buffer_reads_zero_data_witness :
    readProposalAccountData keyP ⟨keyP, List.replicate 4 0⟩ = .error .zeroData :=
  all_zero_buffer_reads_zero_data keyP ⟨keyP, List.replicate 4 0⟩ rfl (by decide)

/-! ## Claim C9 -/

/-- C9: an empty or all-zero proposal buffer owned by the program raises
the zero-data condition — which is distinct from the empty-data and
type-mismatch errors — because the all-zero scan runs before the
discriminant check. -/
theorem empty_or_zero_proposal_buffer_zero_data (pid : Pubkey) (info : AccountInfo)
    (howner : info.owner = pid)
    (hz : info.data = [] ∨ ∀ b ∈ info.data, b = 0) :
    readProposalAccountData pid info = .error .zeroData ∧
    ReadError.zeroData ≠ ReadError.emptyData ∧
    ReadError.zeroData ≠ ReadError.typeMismatch := by
  refine ⟨readProposal_allZero pid info howner ?_, by decide, by decide⟩
  rcases hz with h | h
  · intro b hb
    rw [h] at hb
    cases hb
  · exact h

/-- C9 witness: the empty buffer is reported as the zero-data condition. -/
theorem empty_or_zero_proposal_buffer_zero_data_witness :
    readProposalAccountData keyP ⟨keyP, []⟩ = .error .zeroData ∧
    ReadError.zeroData ≠ ReadError.emptyData ∧
    ReadError.zeroData ≠ ReadError.typeMismatch :=
  empty_or_zero_proposal_buffer_zero_data keyP ⟨keyP, []⟩ rfl (Or.inl rfl)

/-! ## Claim C7 -/

/-- C7 counterexample: a proposal buffer whose single byte is `0` has a
discriminant different from the proposal tag, yet the reader reports the
zero-data condition, not the type-mismatch error, because the all-zero
scan runs first. -/
theorem proposal_wrong_tag_zero_buffer_counterexample :
    readProposalAccountData keyP ⟨keyP, [0]⟩ = .error .zeroData ∧
    (0 : Nat) ≠ ACCOUNT_TYPE_TAG_proposal ∧
    ReadError.zeroData ≠ ReadError.typeMismatch :=
  ⟨by decide, by decide, by decide⟩

/-- C7 (amended): both readers fail with the owner-mismatch error whenever
the owner differs from the program identity; a wrong discriminant byte
yields the type-mismatch error — unconditionally for the group reader,
and for the proposal reader whenever the buffer is not all zero (an
all-zero buffer is claimed by the earlier zero-data check); on success
both readers decode exactly the bytes after the one discriminant byte. -/
theorem reader_guard_errors :
    (∀ (pid : Pubkey) (info : AccountInfo), info.owner ≠ pid →
        readGroupAccountData pid info = .error .ownerMismatch ∧
        readProposalAccountData pid info = .error .ownerMismatch) ∧
    (∀ (pid : Pubkey) (b : Nat) (rest : Bytes) (info : AccountInfo),
        info.owner = pid → info.data = b :: rest → b ≠ ACCOUNT_TYPE_TAG_group →
        readGroupAccountData pid info = .error .typeMismatch) ∧
    (∀ (pid : Pubkey) (b : Nat) (rest : Bytes) (info : AccountInfo),
        info.owner = pid → info.data = b :: rest → b ≠ ACCOUNT_TYPE_TAG_proposal →
        anyNonZero info.data = true →
        readProposalAccountData pid info = .error .typeMismatch) ∧
    (∀ (pid : Pubkey) (info : AccountInfo) (v : GroupData),
        readGroupAccountData pid info = .ok v →
        deserializeGroupData (info.data.drop 1) = .ok v) ∧
    (∀ (pid : Pubkey) (info : AccountInfo) (v : ProposalData),
        readProposalAccountData pid info = .ok v →
        deserializeProposalData (info.data.drop 1) = .ok v) := by
  refine ⟨?_, ?_, ?_, ?_, ?_⟩
  · intro pid info h
    constructor
    · simp [readGroupAccountData, h]
    · simp [readProposalAccountData, h]
  · intro pid b rest info howner hdata hb
    simp [readGroupAccountData, howner, hdata, checkAccountType, hb]
  · intro pid b rest info howner hdata hb hnz
    rw [hdata] at hnz
    simp [readProposalAccountData, howner, hnz, hdata, checkAccountType, hb]
  · intro pid info v h
    unfold readGroupAccountData at h
    split at h
    · cases h
    · split at h
      · cases h
      · exact h
  · intro pid info v h
    unfold readProposalAccountData at h
    split at h
    · cases h
    · split at h
      · cases h
      · split at h
        · cases h
        · exact h

end Multisig
